import Mathlib

/-!
Verification of the GBA-emulator core (catsanzsh/gbaemucrap) against its
specification.  The repository contains several draft implementations of the
same core; the claims reference two of them:

* `src/0.py` — contains two `MemoryManager` classes.  The first (lines
  73–199) is embedded below as namespace `MM`; the second, table-driven one
  (lines 412–475) as namespace `MM2`.
* `src/flamesgbav2.py` — the full system (ARM7TDMI CPU, `Memory` bus, `PPU`,
  `Keypad`), embedded as namespace `GBA`.

Conventions of the shallow embedding:
* Python bytearrays become functions `Nat → Nat` (plus a fixed length
  constant); the growable ROM image is a `List Nat`.
* Machine integers are `Nat` with explicit masking where Python masks:
  `x & 0xFF` is written `x % 256`, `x & 3` as `x % 4`, `x & 0x1F` as
  `x % 32`, `x & 0xFFFFFFFF` as `x % 4294967296`; non-mask bit tests keep
  `&&&`/`|||`/`>>>`/`<<<`.
* Code that can raise (`int.to_bytes` overflow, `load_bios` size check)
  returns `Except`; everything else is a total function, mirroring the
  exception-free paths of the source.
* Warning strings appended to `self.warnings` are modeled by an inductive
  type with one constructor per message template.
-/

/-- 32-bit rotate right as computed inline in `MemoryManager.read_word`
(src/0.py:155): `((val >> rot) | (val << (32 - rot))) & 0xFFFFFFFF`. -/
def ror32 (val rot : Nat) : Nat :=
  ((val >>> rot) ||| (val <<< (32 - rot))) % 4294967296

/-- An 8-bit-per-channel color.  `flamesgbav2.py` stores pixels as Tk hex
strings `"#rrggbb"`; the encoding is bijective, so a pixel is modeled by its
three channel values. -/
structure Color where
  r : Nat
  g : Nat
  b : Nat
deriving DecidableEq

namespace MM

/-- Region tags of the first `MemoryManager.map_address` (src/0.py:101). -/
inductive Region
  | bios | ewram | iwram | io_regs | palette | vram | oam | rom | sram
  | invalid
deriving DecidableEq

/-- Warnings appended to `self.warnings` by the first `MemoryManager`;
one constructor per f-string template. -/
inductive Warning
  | unmapped (addr : Nat)
  | oobRead (r : Region) (offset : Nat)
  | oobWrite (r : Region) (offset : Nat)
  | unalignedHalfRead (addr : Nat)
  | unalignedWordRead (addr : Nat)
  | unalignedHalfWrite (addr : Nat)
  | unalignedWordWrite (addr : Nat)
  | writeInvalid (addr : Nat)
  | writeRom (addr : Nat)
  | writeBios (addr : Nat)
  | biosTooLarge (n : Nat)
deriving DecidableEq

/-- State of the first `MemoryManager` (src/0.py:73). -/
structure St where
  bios : Nat → Nat
  ewram : Nat → Nat
  iwram : Nat → Nat
  io_regs : Nat → Nat
  palette : Nat → Nat
  vram : Nat → Nat
  oam : Nat → Nat
  rom : List Nat
  sram : Nat → Nat
  last_read_addr : Nat
  last_write_addr : Nat
  warnings : List Warning

/-- Fixed buffer sizes from `MemoryManager.__init__` (src/0.py:75). -/
def regionLen (s : St) : Region → Nat
  | .bios => 16384
  | .ewram => 262144
  | .iwram => 32768
  | .io_regs => 1024
  | .palette => 1024
  | .vram => 98304
  | .oam => 1024
  | .rom => s.rom.length
  | .sram => 65536
  | .invalid => 0

/-- `getattr(self, region)[offset]` as a lookup function. -/
def regionGet (s : St) : Region → Nat → Nat
  | .bios => s.bios
  | .ewram => s.ewram
  | .iwram => s.iwram
  | .io_regs => s.io_regs
  | .palette => s.palette
  | .vram => s.vram
  | .oam => s.oam
  | .rom => fun i => s.rom.getD i 0
  | .sram => s.sram
  | .invalid => fun _ => 0

/-- The pure region/offset computation of `MemoryManager.map_address`
(src/0.py:101): `addr &= 0xFFFFFFFF`, then the fixed if-chain of windows.
Only the ROM window depends on the state (its upper end is
`0x08000000 + len(self.rom)`), so the ROM length is the only parameter.
The warning appended in the final `else` is handled by the callers below. -/
def mapAddr (romLen : Nat) (addr : Nat) : Region × Nat :=
  let a := addr % 4294967296
  if a < 0x00004000 then (.bios, a)
  else if 0x02000000 ≤ a ∧ a < 0x02040000 then (.ewram, a - 0x02000000)
  else if 0x03000000 ≤ a ∧ a < 0x03008000 then (.iwram, a - 0x03000000)
  else if 0x04000000 ≤ a ∧ a < 0x04000400 then (.io_regs, a - 0x04000000)
  else if 0x05000000 ≤ a ∧ a < 0x05000400 then (.palette, a - 0x05000000)
  else if 0x06000000 ≤ a ∧ a < 0x06018000 then (.vram, a - 0x06000000)
  else if 0x07000000 ≤ a ∧ a < 0x07000400 then (.oam, a - 0x07000000)
  else if 0x08000000 ≤ a ∧ a < 0x08000000 + romLen then (.rom, a - 0x08000000)
  else if 0x0E000000 ≤ a ∧ a < 0x0E010000 then (.sram, a - 0x0E000000)
  else (.invalid, 0)

/-- `MemoryManager.read_byte` (src/0.py:125): records `last_read_addr`,
resolves the region (recording an unmapped-access warning exactly when the
resolution fails, as `map_address` does), returns the open-bus byte
`(addr >> 24) & 0xFF` for unmapped addresses, the stored byte in bounds,
and `0` plus an out-of-bounds warning otherwise. -/
def read_byte (s : St) (addr : Nat) : Nat × St :=
  let s := {s with last_read_addr := addr}
  let ro := mapAddr s.rom.length addr
  let s := if ro.1 = .invalid then
      {s with warnings := s.warnings ++ [.unmapped (addr % 4294967296)]}
    else s
  if ro.1 = .invalid then ((addr >>> 24) % 256, s)
  else if ro.2 < regionLen s ro.1 then (regionGet s ro.1 ro.2, s)
  else (0, {s with warnings := s.warnings ++ [.oobRead ro.1 ro.2]})

/-- `MemoryManager.read_word` (src/0.py:145).  Misaligned addresses record a
warning, read the aligned word and rotate it right by `(addr & 3) * 8`. -/
def read_word (s : St) (addr : Nat) : Nat × St :=
  let s := {s with last_read_addr := addr}
  if addr % 4 ≠ 0 then  -- if addr & 3
    let s := {s with warnings := s.warnings ++ [.unalignedWordRead addr]}
    let rot := (addr % 4) * 8
    let aligned := addr - addr % 4  -- addr & ~3
    let r0 := read_byte s aligned
    let r1 := read_byte r0.2 (aligned + 1)
    let r2 := read_byte r1.2 (aligned + 2)
    let r3 := read_byte r2.2 (aligned + 3)
    let val := r0.1 ||| (r1.1 <<< 8) ||| (r2.1 <<< 16) ||| (r3.1 <<< 24)
    (((val >>> rot) ||| (val <<< (32 - rot))) % 4294967296, r3.2)
  else
    let r0 := read_byte s addr
    let r1 := read_byte r0.2 (addr + 1)
    let r2 := read_byte r1.2 (addr + 2)
    let r3 := read_byte r2.2 (addr + 3)
    ((r3.1 <<< 24) ||| (r2.1 <<< 16) ||| (r1.1 <<< 8) ||| r0.1, r3.2)

/-- `MemoryManager.load_bios` (src/0.py:89): fitting data is copied in
place; oversized data records a warning and fills the region with the
truncated prefix.  Never fails. -/
def load_bios (s : St) (data : List Nat) : St :=
  if data.length ≤ 16384 then
    {s with bios := fun i => if i < data.length then data.getD i 0 else s.bios i}
  else
    {s with
      warnings := s.warnings ++ [.biosTooLarge data.length],
      bios := fun i => if i < 16384 then data.getD i 0 else s.bios i}

/-- A fresh `MemoryManager()`: zeroed buffers, empty ROM, no warnings. -/
def init : St where
  bios := fun _ => 0
  ewram := fun _ => 0
  iwram := fun _ => 0
  io_regs := fun _ => 0
  palette := fun _ => 0
  vram := fun _ => 0
  oam := fun _ => 0
  rom := []
  sram := fun _ => 0
  last_read_addr := 0
  last_write_addr := 0
  warnings := []

end MM

namespace MM2

/-- Region tags of the second (`REGION_MAP`-driven) `MemoryManager`
(src/0.py:413). -/
inductive Region
  | bios | ewram | iwram | io_regs | palette | vram | oam | rom | sram
  | invalid
deriving DecidableEq

/-- Warnings appended to `self.warnings` by the second `MemoryManager`. -/
inductive Warning
  | unmapped (addr : Nat)
  | oobRead (r : Region) (offset : Nat)
  | illegalWrite (r : Region) (addr : Nat)
  | oobWrite (r : Region) (offset : Nat)
  | biosTruncated
deriving DecidableEq

/-- The `OverflowError` that `value.to_bytes(size, 'little')` raises in
`MemoryManager.write` (src/0.py:473) when the value does not fit. -/
inductive Err
  | overflow
deriving DecidableEq

/-- State of the second `MemoryManager` (src/0.py:425). -/
structure St where
  bios : Nat → Nat
  ewram : Nat → Nat
  iwram : Nat → Nat
  io_regs : Nat → Nat
  palette : Nat → Nat
  vram : Nat → Nat
  oam : Nat → Nat
  sram : Nat → Nat
  rom : List Nat
  warnings : List Warning

/-- Fixed buffer sizes from `MemoryManager.__init__` (src/0.py:426). -/
def regionLen (s : St) : Region → Nat
  | .bios => 16384
  | .ewram => 262144
  | .iwram => 32768
  | .io_regs => 1024
  | .palette => 1024
  | .vram => 98304
  | .oam => 1024
  | .rom => s.rom.length
  | .sram => 65536
  | .invalid => 0

/-- `getattr(self, region)` as a lookup function. -/
def regionGet (s : St) : Region → Nat → Nat
  | .bios => s.bios
  | .ewram => s.ewram
  | .iwram => s.iwram
  | .io_regs => s.io_regs
  | .palette => s.palette
  | .vram => s.vram
  | .oam => s.oam
  | .rom => fun i => s.rom.getD i 0
  | .sram => s.sram
  | .invalid => fun _ => 0

/-- Point update of one region buffer. -/
def regionSet (s : St) (r : Region) (i v : Nat) : St :=
  match r with
  | .bios => {s with bios := fun j => if j = i then v else s.bios j}
  | .ewram => {s with ewram := fun j => if j = i then v else s.ewram j}
  | .iwram => {s with iwram := fun j => if j = i then v else s.iwram j}
  | .io_regs => {s with io_regs := fun j => if j = i then v else s.io_regs j}
  | .palette => {s with palette := fun j => if j = i then v else s.palette j}
  | .vram => {s with vram := fun j => if j = i then v else s.vram j}
  | .oam => {s with oam := fun j => if j = i then v else s.oam j}
  | .rom => {s with rom := s.rom.set i v}
  | .sram => {s with sram := fun j => if j = i then v else s.sram j}
  | .invalid => s

/-- `MemoryManager.map_address` (src/0.py:447): walks `REGION_MAP` in order
(the ROM entry's `None` end meaning `start + len(self.rom)`), appending an
unmapped-access warning when no window matches.  Note: no 32-bit masking in
this variant. -/
def map_address (s : St) (addr : Nat) : (Region × Nat) × St :=
  if addr < 0x00004000 then ((.bios, addr), s)
  else if 0x02000000 ≤ addr ∧ addr < 0x02040000 then ((.ewram, addr - 0x02000000), s)
  else if 0x03000000 ≤ addr ∧ addr < 0x03008000 then ((.iwram, addr - 0x03000000), s)
  else if 0x04000000 ≤ addr ∧ addr < 0x04000400 then ((.io_regs, addr - 0x04000000), s)
  else if 0x05000000 ≤ addr ∧ addr < 0x05000400 then ((.palette, addr - 0x05000000), s)
  else if 0x06000000 ≤ addr ∧ addr < 0x06018000 then ((.vram, addr - 0x06000000), s)
  else if 0x07000000 ≤ addr ∧ addr < 0x07000400 then ((.oam, addr - 0x07000000), s)
  else if 0x08000000 ≤ addr ∧ addr < 0x08000000 + s.rom.length then
    ((.rom, addr - 0x08000000), s)
  else if 0x0E000000 ≤ addr ∧ addr < 0x0E010000 then ((.sram, addr - 0x0E000000), s)
  else ((.invalid, 0), {s with warnings := s.warnings ++ [.unmapped addr]})

/-- `int.from_bytes(mem[offset:offset+size], 'little')`. -/
def readLE (f : Nat → Nat) (offset : Nat) : Nat → Nat
  | 0 => 0
  | k + 1 => f offset + 256 * readLE f (offset + 1) k

/-- The little-endian byte stores performed by
`mem[offset:offset+size] = value.to_bytes(size, 'little')`. -/
def writeLE (s : St) (r : Region) (offset value : Nat) : Nat → St
  | 0 => s
  | k + 1 => writeLE (regionSet s r offset (value % 256)) r (offset + 1) (value / 256) k

/-- `MemoryManager.read` (src/0.py:456). -/
def read (s : St) (addr : Nat) (size : Nat) : Nat × St :=
  let rs := map_address s addr
  let region := rs.1.1
  let offset := rs.1.2
  let s := rs.2
  if region = .invalid then (0, s)
  else if offset + size ≤ regionLen s region then
    (readLE (regionGet s region) offset size, s)
  else (0, {s with warnings := s.warnings ++ [.oobRead region offset]})

/-- `MemoryManager.write` (src/0.py:466).  The value is NOT masked:
`value.to_bytes(size, 'little')` raises `OverflowError` (modeled as
`.error .overflow`) whenever `value ≥ 256 ^ size`; the bounds check of the
enclosing `if` happens first, so the out-of-bounds path never raises. -/
def write (s : St) (addr : Nat) (value : Nat) (size : Nat) : Except Err St :=
  let rs := map_address s addr
  let region := rs.1.1
  let offset := rs.1.2
  let s := rs.2
  if region = .invalid ∨ region = .rom ∨ region = .bios then
    .ok {s with warnings := s.warnings ++ [.illegalWrite region addr]}
  else if offset + size ≤ regionLen s region then
    if value < 256 ^ size then .ok (writeLE s region offset value size)
    else .error .overflow
  else .ok {s with warnings := s.warnings ++ [.oobWrite region offset]}

/-- A fresh second `MemoryManager()`: zeroed buffers, empty ROM. -/
def init : St where
  bios := fun _ => 0
  ewram := fun _ => 0
  iwram := fun _ => 0
  io_regs := fun _ => 0
  palette := fun _ => 0
  vram := fun _ => 0
  oam := fun _ => 0
  sram := fun _ => 0
  rom := []
  warnings := []

end MM2

namespace GBA

/-- Region tags of `Memory._get_memory_region_and_offset`
(src/flamesgbav2.py:312).  `dummy` is the 4-byte `dummy_unmapped` buffer
returned for unmapped addresses. -/
inductive Region
  | bios | ewram | iwram | ioRegs | palette | vram | oam | rom | sram | dummy
deriving DecidableEq

/-- The whole wired object graph of `GBAEmulator` (src/flamesgbav2.py:577):
the `Memory` buffers, the `Keypad` latch, the `PPU` state and the `ARM7TDMI`
register file.  In the source these are separate mutually-referencing
mutable objects; the shallow embedding flattens them into one state record.
The lazily created `sram`/`dummy_unmapped` bytearrays are modeled as always
present (they are zero-filled on first use, observationally the same). -/
structure St where
  bios : Nat → Nat
  ewram : Nat → Nat
  iwram : Nat → Nat
  io_regs : Nat → Nat
  palette_ram : Nat → Nat
  vram : Nat → Nat
  oam : Nat → Nat
  gamepak_rom : List Nat
  sram : Nat → Nat
  dummy_unmapped : Nat → Nat
  ppuConnected : Bool
  keypadConnected : Bool
  key_state : Nat
  frame_buffer : Nat → Color
  current_scanline : Nat
  cycles_scanline : Nat
  R : Nat → Nat
  bankFIQ : Nat → Nat
  bankIRQ : Nat → Nat
  bankSVC : Nat → Nat
  bankABT : Nat → Nat
  bankUND : Nat → Nat
  CPSR : Nat
  SPSR : Nat → Nat
  cycles : Nat

/-- Buffer sizes from the constants of src/flamesgbav2.py:16. -/
def regionLen (s : St) : Region → Nat
  | .bios => 16384
  | .ewram => 262144
  | .iwram => 32768
  | .ioRegs => 1024
  | .palette => 1024
  | .vram => 98304
  | .oam => 1024
  | .rom => s.gamepak_rom.length
  | .sram => 65536
  | .dummy => 4

/-- Contents of a region as a lookup function. -/
def regionGet (s : St) : Region → Nat → Nat
  | .bios => s.bios
  | .ewram => s.ewram
  | .iwram => s.iwram
  | .ioRegs => s.io_regs
  | .palette => s.palette_ram
  | .vram => s.vram
  | .oam => s.oam
  | .rom => fun i => s.gamepak_rom.getD i 0
  | .sram => s.sram
  | .dummy => s.dummy_unmapped

/-- Point update of one region buffer. -/
def regionSet (s : St) (r : Region) (i v : Nat) : St :=
  match r with
  | .bios => {s with bios := fun j => if j = i then v else s.bios j}
  | .ewram => {s with ewram := fun j => if j = i then v else s.ewram j}
  | .iwram => {s with iwram := fun j => if j = i then v else s.iwram j}
  | .ioRegs => {s with io_regs := fun j => if j = i then v else s.io_regs j}
  | .palette => {s with palette_ram := fun j => if j = i then v else s.palette_ram j}
  | .vram => {s with vram := fun j => if j = i then v else s.vram j}
  | .oam => {s with oam := fun j => if j = i then v else s.oam j}
  | .rom => {s with gamepak_rom := s.gamepak_rom.set i v}
  | .sram => {s with sram := fun j => if j = i then v else s.sram j}
  | .dummy => {s with dummy_unmapped := fun j => if j = i then v else s.dummy_unmapped j}

/-- `Memory._get_memory_region_and_offset` (src/flamesgbav2.py:312):
`addr &= 0xFFFFFFFF`, then an if-chain of `0xFFFFFF`-wide windows whose
offsets wrap modulo the buffer size; unmapped addresses resolve to the
4-byte `dummy_unmapped` buffer at offset 0. -/
def region_offset (s : St) (addr : Nat) : Region × Nat :=
  let a := addr % 4294967296
  if a < 0x00004000 then (.bios, a)
  else if 0x02000000 ≤ a ∧ a < 0x02000000 + 0xFFFFFF then (.ewram, (a - 0x02000000) % 0x40000)
  else if 0x03000000 ≤ a ∧ a < 0x03000000 + 0xFFFFFF then (.iwram, (a - 0x03000000) % 0x8000)
  else if 0x04000000 ≤ a ∧ a < 0x04000000 + 0xFFFFFF then (.ioRegs, (a - 0x04000000) % 0x400)
  else if 0x05000000 ≤ a ∧ a < 0x05000000 + 0xFFFFFF then (.palette, (a - 0x05000000) % 0x400)
  else if 0x06000000 ≤ a ∧ a < 0x06000000 + 0xFFFFFF then (.vram, (a - 0x06000000) % 0x18000)
  else if 0x07000000 ≤ a ∧ a < 0x07000000 + 0xFFFFFF then (.oam, (a - 0x07000000) % 0x400)
  else if 0x08000000 ≤ a ∧ a < 0x08000000 + s.gamepak_rom.length then (.rom, a - 0x08000000)
  else if 0x0E000000 ≤ a ∧ a < 0x0E010000 then (.sram, a - 0x0E000000)
  else (.dummy, 0)

/-- `PPU.is_ppu_register` (src/flamesgbav2.py:415): the (possibly negative)
Python offset `addr - IO_REG_START` is computed in `Int`. -/
def is_ppu_register (addr : Nat) : Bool :=
  let offset : Int := (addr : Int) - 0x04000000
  decide (0 ≤ offset ∧ offset ≤ 0x5F)

/-- `Memory.read_byte` (src/flamesgbav2.py:337).  The KEYINPUT register is
intercepted (note: the comparison uses the unmasked address); missing
keypad gives `0xFF`; out-of-bounds offsets give `0xFF`. -/
def read_byte (s : St) (addr : Nat) : Nat :=
  let ro := region_offset s addr
  if ro.1 = .ioRegs ∧ addr = 0x04000130 then
    (if s.keypadConnected then s.key_state else 0xFF)
  else if regionLen s ro.1 ≤ ro.2 then 0xFF
  else regionGet s ro.1 ro.2

/-- `Memory.read_halfword` (src/flamesgbav2.py:345): misaligned addresses
are masked down (`addr &= ~1`), with no rotation and no warning. -/
def read_halfword (s : St) (addr : Nat) : Nat :=
  let addr := if addr % 2 ≠ 0 then addr - addr % 2 else addr
  let ro := region_offset s addr
  if regionLen s ro.1 ≤ ro.2 + 1 then 0xFFFF
  else regionGet s ro.1 ro.2 ||| (regionGet s ro.1 (ro.2 + 1) <<< 8)

/-- `Memory.read_word` (src/flamesgbav2.py:353): misaligned addresses are
masked down (`addr &= ~3`), with no rotation and no warning. -/
def read_word (s : St) (addr : Nat) : Nat :=
  let addr := if addr % 4 ≠ 0 then addr - addr % 4 else addr
  let ro := region_offset s addr
  if regionLen s ro.1 ≤ ro.2 + 3 then 0xFFFFFFFF
  else regionGet s ro.1 ro.2 ||| (regionGet s ro.1 (ro.2 + 1) <<< 8) |||
       (regionGet s ro.1 (ro.2 + 2) <<< 16) ||| (regionGet s ro.1 (ro.2 + 3) <<< 24)

/-- `PPU.write_register_byte` (src/flamesgbav2.py:419): writes
`io_regs[addr - IO_REG_START]` (only reached for `addr` in the PPU
register window). -/
def write_register_byte (s : St) (addr val : Nat) : St :=
  {s with io_regs := fun j => if j = addr - 0x04000000 then val else s.io_regs j}

/-- `PPU.write_register_halfword` (src/flamesgbav2.py:423): two byte stores
at `offset` and `offset+1` (the `DISPCNT` branch is `pass`). -/
def write_register_halfword (s : St) (addr val : Nat) : St :=
  let offset := addr - 0x04000000
  {s with io_regs := fun j =>
    if j = offset + 1 then (val >>> 8) % 256
    else if j = offset then val % 256
    else s.io_regs j}

/-- `PPU.write_register_word` (src/flamesgbav2.py:430). -/
def write_register_word (s : St) (addr val : Nat) : St :=
  write_register_halfword (write_register_halfword s addr (val % 65536))
    (addr + 2) ((val >>> 16) % 65536)

/-- `Memory.write_byte` (src/flamesgbav2.py:362): BIOS/ROM writes are
dropped; PPU-register addresses are forwarded to the PPU handler and then
also written by the generic path (the source has no early return there). -/
def write_byte (s : St) (addr val : Nat) : St :=
  let val := val % 256
  let ro := region_offset s addr
  if ro.1 = .bios ∨ ro.1 = .rom then s
  else
    let s := if ro.1 = .ioRegs ∧ s.ppuConnected = true ∧ is_ppu_register addr = true then
        write_register_byte s addr val
      else s
    if regionLen s ro.1 ≤ ro.2 then s
    else regionSet s ro.1 ro.2 val

/-- `Memory.write_halfword` (src/flamesgbav2.py:373). -/
def write_halfword (s : St) (addr val : Nat) : St :=
  let val := val % 65536
  let addr := if addr % 2 ≠ 0 then addr - addr % 2 else addr
  let ro := region_offset s addr
  if ro.1 = .bios ∨ ro.1 = .rom then s
  else
    let s := if ro.1 = .ioRegs ∧ s.ppuConnected = true ∧ is_ppu_register addr = true then
        write_register_halfword s addr val
      else s
    if regionLen s ro.1 ≤ ro.2 + 1 then s
    else regionSet (regionSet s ro.1 ro.2 (val % 256)) ro.1 (ro.2 + 1) ((val >>> 8) % 256)

/-- `Memory.write_word` (src/flamesgbav2.py:387). -/
def write_word (s : St) (addr val : Nat) : St :=
  let val := val % 4294967296
  let addr := if addr % 4 ≠ 0 then addr - addr % 4 else addr
  let ro := region_offset s addr
  if ro.1 = .bios ∨ ro.1 = .rom then s
  else
    let s := if ro.1 = .ioRegs ∧ s.ppuConnected = true ∧ is_ppu_register addr = true then
        write_register_word s addr val
      else s
    if regionLen s ro.1 ≤ ro.2 + 3 then s
    else
      let s := regionSet s ro.1 ro.2 (val % 256)
      let s := regionSet s ro.1 (ro.2 + 1) ((val >>> 8) % 256)
      let s := regionSet s ro.1 (ro.2 + 2) ((val >>> 16) % 256)
      regionSet s ro.1 (ro.2 + 3) ((val >>> 24) % 256)

/-- `Memory.load_bios` (src/flamesgbav2.py:302): raises
`ValueError("BIOS too large, meow!")` when the data exceeds `BIOS_SIZE`;
the raise is modeled as `.error`. -/
def load_bios (s : St) (data : List Nat) : Except String St :=
  if 16384 < data.length then .error "BIOS too large, meow!"
  else .ok {s with bios := fun i => if i < data.length then data.getD i 0 else s.bios i}

/-- `Keypad.key_map` (src/flamesgbav2.py:527): keyboard name → button bit. -/
def key_map (name : String) : Option Nat :=
  if name = "z" then some 0
  else if name = "x" then some 1
  else if name = "return" then some 3
  else if name = "shift_r" then some 2
  else if name = "up" then some 6
  else if name = "down" then some 7
  else if name = "left" then some 5
  else if name = "right" then some 4
  else if name = "a" then some 9
  else if name = "s" then some 8
  else none

/-- `Keypad.update_keyinput_reg` (src/flamesgbav2.py:555): mirrors the
latched state into `io_regs[0x130]`/`io_regs[0x131]`. -/
def update_keyinput_reg (s : St) : St :=
  {s with io_regs := fun j =>
    if j = 0x131 then (s.key_state >>> 8) % 256
    else if j = 0x130 then s.key_state % 256
    else s.io_regs j}

/-- Python's `str.lower()` on the key name.  (Semantically
`String.toLower`, but written over the character list so that the kernel
can evaluate it.) -/
def pyLower (str : String) : String := ⟨str.data.map Char.toLower⟩

/-- `Keypad.key_down` (src/flamesgbav2.py:541): clears the button's bit
(`key_state &= ~(1 << bit)`, pressed = logic low) and refreshes the
register bytes; unknown names only refresh. -/
def key_down (s : St) (key_name : String) : St :=
  let name := pyLower key_name
  let s := match key_map name with
    | some bit => {s with key_state := s.key_state - (s.key_state &&& (1 <<< bit))}
    | none => s
  update_keyinput_reg s

/-- `Keypad.key_up` (src/flamesgbav2.py:548): sets the button's bit. -/
def key_up (s : St) (key_name : String) : St :=
  let name := pyLower key_name
  let s := match key_map name with
    | some bit => {s with key_state := s.key_state ||| (1 <<< bit)}
    | none => s
  update_keyinput_reg s

end GBA

namespace GBA

/-- The 15-bit → 24-bit color conversion of `PPU.render_scanline`
(src/flamesgbav2.py:477): 5 bits per channel rescaled by `* 255 // 31`.
The `color_cache` dict is a pure memoization and is modeled by direct
computation. -/
def colorOf (c : Nat) : Color :=
  ⟨(c % 32) * 255 / 31, ((c >>> 5) % 32) * 255 / 31, ((c >>> 10) % 32) * 255 / 31⟩

/-- Point update of the frame buffer. -/
def fbUpd (fb : Nat → Color) (i : Nat) (c : Color) : Nat → Color :=
  fun j => if j = i then c else fb j

/-- The `for x in range(SCREEN_WIDTH)` fill loop used by the forced-blank
and unsupported-mode branches of `render_scanline`: every pixel of row `y`
becomes `col`.  `fillRow y col s n` performs the iterations `x = 0..n-1`. -/
def fillRow (y : Nat) (col : Color) (s : St) : Nat → St
  | 0 => s
  | x + 1 =>
    let s := fillRow y col s x
    {s with frame_buffer := fbUpd s.frame_buffer (y * 240 + x) col}

/-- The mode-3 pixel loop of `render_scanline` (src/flamesgbav2.py:470):
16-bit direct color from VRAM at `y*240*2 + 2*x`, with the out-of-VRAM
guard painting `'#FF00FF'`. -/
def mode3Row (y : Nat) (s : St) : Nat → St
  | 0 => s
  | x + 1 =>
    let s := mode3Row y s x
    let vram_offset := y * 240 * 2 + 2 * x
    if vram_offset + 1 < 98304 then
      let color_15bit := s.vram vram_offset ||| (s.vram (vram_offset + 1) <<< 8)
      {s with frame_buffer := fbUpd s.frame_buffer (y * 240 + x) (colorOf color_15bit)}
    else
      {s with frame_buffer := fbUpd s.frame_buffer (y * 240 + x) ⟨255, 0, 255⟩}

/-- The mode-4 pixel loop of `render_scanline` (src/flamesgbav2.py:494):
8-bit palette index from the selected page, 16-bit color from palette RAM;
the guards paint `'#00FF00'` / `'#0000FF'`. -/
def mode4Row (y page : Nat) (s : St) : Nat → St
  | 0 => s
  | x + 1 =>
    let s := mode4Row y page s x
    let vram_base := page + y * 240 + x
    if vram_base < 98304 then
      let palette_idx := s.vram vram_base
      let pal_addr := palette_idx * 2
      if pal_addr + 1 < 1024 then
        let color_15bit := s.palette_ram pal_addr ||| (s.palette_ram (pal_addr + 1) <<< 8)
        {s with frame_buffer := fbUpd s.frame_buffer (y * 240 + x) (colorOf color_15bit)}
      else
        {s with frame_buffer := fbUpd s.frame_buffer (y * 240 + x) ⟨0, 255, 0⟩}
    else
      {s with frame_buffer := fbUpd s.frame_buffer (y * 240 + x) ⟨0, 0, 255⟩}

/-- `PPU.render_scanline` (src/flamesgbav2.py:462): reads `DISPCNT` through
the bus, dispatches on the mode bits; forced blank (`bit 7`) paints black;
unsupported modes paint `'#111111'`. -/
def render_scanline (y : Nat) (s : St) : St :=
  let dispcnt := read_halfword s 0x04000000
  let mode := dispcnt % 8  -- dispcnt & 0x7
  if mode = 3 then
    if (dispcnt >>> 7) % 2 = 1 then fillRow y ⟨0, 0, 0⟩ s 240
    else mode3Row y s 240
  else if mode = 4 then
    if (dispcnt >>> 7) % 2 = 1 then fillRow y ⟨0, 0, 0⟩ s 240
    else mode4Row y (if (dispcnt >>> 4) % 2 = 1 then 0xA000 else 0) s 240
  else fillRow y ⟨17, 17, 17⟩ s 240

/-- `PPU.step` (src/flamesgbav2.py:443): accumulate cycles; on crossing the
1232-cycle threshold, subtract it, render the current scanline if visible,
advance the scanline (wrapping 228 → 0), and write `VCOUNT` through the
bus.  The `DISPSTAT` VBlank/VCOUNT-match branches of the source end in
`pass` and are omitted as no-ops. -/
def ppu_step (cycles : Nat) (s : St) : St :=
  let s := {s with cycles_scanline := s.cycles_scanline + cycles}
  if 1232 ≤ s.cycles_scanline then
    let s := {s with cycles_scanline := s.cycles_scanline - 1232}
    let s := if s.current_scanline < 160 then render_scanline s.current_scanline s else s
    let s := {s with current_scanline := s.current_scanline + 1}
    let s := if s.current_scanline = 228 then {s with current_scanline := 0} else s
    write_byte s (0x04000000 + 0x06) s.current_scanline  -- VCOUNT
  else s

/-- The line that one `ppu_step` call renders, if any: the current scanline,
exactly when the accumulator crosses the threshold and the line is visible.
Observation function used to state the once-per-frame property. -/
def renderedLine (s : St) (cycles : Nat) : Option Nat :=
  if 1232 ≤ s.cycles_scanline + cycles ∧ s.current_scanline < 160 then
    some s.current_scanline
  else none

/-- `ARM7TDMI.get_reg`-style bank selection: `self.R_banked[mode]`
(src/flamesgbav2.py:46). -/
def bank (s : St) (m : Nat) : Nat → Nat :=
  if m = 0x11 then s.bankFIQ
  else if m = 0x12 then s.bankIRQ
  else if m = 0x13 then s.bankSVC
  else if m = 0x17 then s.bankABT
  else if m = 0x1B then s.bankUND
  else fun _ => 0

/-- Point update of `self.R_banked[mode][i]`. -/
def setBank (s : St) (m i val : Nat) : St :=
  if m = 0x11 then {s with bankFIQ := fun j => if j = i then val else s.bankFIQ j}
  else if m = 0x12 then {s with bankIRQ := fun j => if j = i then val else s.bankIRQ j}
  else if m = 0x13 then {s with bankSVC := fun j => if j = i then val else s.bankSVC j}
  else if m = 0x17 then {s with bankABT := fun j => if j = i then val else s.bankABT j}
  else if m = 0x1B then {s with bankUND := fun j => if j = i then val else s.bankUND j}
  else s

/-- Point update of `self.R[i]`. -/
def setR (s : St) (i val : Nat) : St :=
  {s with R := fun j => if j = i then val else s.R j}

/-- `ARM7TDMI.get_reg` (src/flamesgbav2.py:79): mode-dependent banking of
R8–R14 (FIQ) and R13/R14 (IRQ/SVC/ABT/UND). -/
def get_reg (s : St) (r_idx : Nat) : Nat :=
  let current_mode := s.CPSR % 32  -- CPSR & 0x1F
  if r_idx < 8 then s.R r_idx
  else if current_mode = 0x11 ∧ 8 ≤ r_idx ∧ r_idx ≤ 14 then bank s 0x11 (r_idx - 8)
  else if r_idx = 13 ∧ (current_mode = 0x12 ∨ current_mode = 0x13 ∨
      current_mode = 0x17 ∨ current_mode = 0x1B) then bank s current_mode 0
  else if r_idx = 14 ∧ (current_mode = 0x12 ∨ current_mode = 0x13 ∨
      current_mode = 0x17 ∨ current_mode = 0x1B) then bank s current_mode 1
  else s.R r_idx

/-- `ARM7TDMI.set_reg` (src/flamesgbav2.py:94): masks to 32 bits, then the
same banking dispatch as `get_reg`. -/
def set_reg (s : St) (r_idx val : Nat) : St :=
  let val := val % 4294967296  -- val &= 0xFFFFFFFF
  let current_mode := s.CPSR % 32
  if r_idx < 8 then setR s r_idx val
  else if current_mode = 0x11 ∧ 8 ≤ r_idx ∧ r_idx ≤ 14 then setBank s 0x11 (r_idx - 8) val
  else if r_idx = 13 ∧ (current_mode = 0x12 ∨ current_mode = 0x13 ∨
      current_mode = 0x17 ∨ current_mode = 0x1B) then setBank s current_mode 0 val
  else if r_idx = 14 ∧ (current_mode = 0x12 ∨ current_mode = 0x13 ∨
      current_mode = 0x17 ∨ current_mode = 0x1B) then setBank s current_mode 1 val
  else setR s r_idx val

def get_pc (s : St) : Nat := s.R 15

/-- `ARM7TDMI.set_pc` (src/flamesgbav2.py:109): `R[15] = val & 0xFFFFFFFF`. -/
def set_pc (s : St) (val : Nat) : St := setR s 15 (val % 4294967296)

/-- `set_pc` for the Thumb branch offsets that Python computes as negative
ints: `val & 0xFFFFFFFF` on an `Int` is `emod 2^32`. -/
def set_pc_int (s : St) (val : Int) : St := setR s 15 (val.emod 4294967296).toNat

def get_flag_N (s : St) : Nat := (s.CPSR >>> 31) % 2
def get_flag_Z (s : St) : Nat := (s.CPSR >>> 30) % 2
def get_flag_C (s : St) : Nat := (s.CPSR >>> 29) % 2
def get_flag_V (s : St) : Nat := (s.CPSR >>> 28) % 2
def get_flag_T (s : St) : Nat := (s.CPSR >>> 5) % 2

/-- `ARM7TDMI.set_thumb_mode` (src/flamesgbav2.py:122); the argument is the
Python truth value (`target_addr & 1`). -/
def set_thumb_mode (s : St) (active : Nat) : St :=
  if active ≠ 0 then {s with CPSR := s.CPSR ||| 32}
  else {s with CPSR := s.CPSR - (s.CPSR &&& 32)}  -- CPSR &= ~(1 << 5)

/-- `ARM7TDMI.check_cond` (src/flamesgbav2.py:126): the fourteen ARM
condition codes over the N/Z/C/V flags (0xE always, 0xF never). -/
def check_cond (s : St) (cond : Nat) : Bool :=
  if cond = 0x0 then get_flag_Z s == 1
  else if cond = 0x1 then get_flag_Z s == 0
  else if cond = 0x2 then get_flag_C s == 1
  else if cond = 0x3 then get_flag_C s == 0
  else if cond = 0x4 then get_flag_N s == 1
  else if cond = 0x5 then get_flag_N s == 0
  else if cond = 0x6 then get_flag_V s == 1
  else if cond = 0x7 then get_flag_V s == 0
  else if cond = 0x8 then get_flag_C s == 1 && get_flag_Z s == 0
  else if cond = 0x9 then get_flag_C s == 0 || get_flag_Z s == 1
  else if cond = 0xA then get_flag_N s == get_flag_V s
  else if cond = 0xB then get_flag_N s != get_flag_V s
  else if cond = 0xC then get_flag_Z s == 0 && (get_flag_N s == get_flag_V s)
  else if cond = 0xD then get_flag_Z s == 1 || (get_flag_N s != get_flag_V s)
  else if cond = 0xE then true
  else false  -- 0xF (never) and the unreachable fall-through

/-- `ARM7TDMI.arm_data_processing` (src/flamesgbav2.py:196): only the NOP
`MOV R0,R0` and the `MOV PC,LR` return idiom are implemented. -/
def arm_data_processing (s : St) (opcode : Nat) : St :=
  if opcode = 0xE1A00000 then s
  else if Nat.land opcode 0x0FFF0FFF = 0x01A00000 then
    (if (opcode >>> 12) % 16 = 15 ∧ opcode % 16 = 14 then set_pc s (get_reg s 14) else s)
  else s

/-- `ARM7TDMI.arm_load_store` (src/flamesgbav2.py:204): only
`LDR Rd, [PC, #imm]` is implemented; everything else falls through. -/
def arm_load_store (s : St) (opcode : Nat) : St :=
  let is_ldr := (opcode >>> 20) % 2
  let is_byte := (opcode >>> 22) % 2
  let rn_idx := (opcode >>> 16) % 16
  let rd_idx := (opcode >>> 12) % 16
  if is_ldr = 1 ∧ rn_idx = 15 then
    let offset := opcode % 4096  -- opcode & 0xFFF
    let pc := get_pc s
    let addr := (pc - (pc &&& 2)) + offset  -- (get_pc() & ~0b10) + offset
    let val := if is_byte = 1 then read_byte s addr else read_word s addr
    set_reg s rd_idx val
  else s

/-- `ARM7TDMI.arm_branch` (src/flamesgbav2.py:224): 24-bit sign-extended
word offset; the link bit saves `current_pc - 4` (two's-complement wrapped
by `set_reg`'s mask). -/
def arm_branch (s : St) (opcode : Nat) : St :=
  let offset := opcode % 16777216  -- opcode & 0x00FFFFFF
  let offset := if Nat.land offset 0x00800000 ≠ 0 then offset ||| 0xFF000000 else offset
  let offset := offset <<< 2
  let current_pc := get_pc s
  let s := if (opcode >>> 24) % 2 = 1 then
      set_reg s 14 ((current_pc + 4294967292) % 4294967296)  -- current_pc - 4
    else s
  set_pc s (current_pc + offset)

/-- `ARM7TDMI.arm_bx_blx` (src/flamesgbav2.py:234). -/
def arm_bx_blx (s : St) (opcode : Nat) : St :=
  let rn_idx := opcode % 16
  let target_addr := get_reg s rn_idx
  let s := if Nat.land opcode 0x0FFFFFF0 = 0x012FFF30 then
      set_reg s 14 ((get_pc s + 4294967292) % 4294967296)  -- get_pc() - 4
    else s
  let s := set_thumb_mode s (target_addr % 2)  -- target_addr & 1
  set_pc s (target_addr - target_addr % 2)  -- target_addr & ~1

/-- `ARM7TDMI.arm_swi` (src/flamesgbav2.py:242): the three handled SWI
numbers all jump to LR. -/
def arm_swi (s : St) (opcode : Nat) : St :=
  let swi_num := opcode % 16777216
  if swi_num = 0 then set_pc s (get_reg s 14)
  else if swi_num = 1 then set_pc s (get_reg s 14)
  else if swi_num = 2 then set_pc s (get_reg s 14)
  else s

/-- `ARM7TDMI.execute_arm` (src/flamesgbav2.py:161): condition gate, then
dispatch on bits 27–25; multiply/SWP/PSR/LDM-STM/coprocessor paths are
`pass` in the source. -/
def execute_arm (s : St) (opcode : Nat) : St :=
  let cond := (opcode >>> 28) % 16
  if ¬ check_cond s cond then s
  else
    let instr_type := (opcode >>> 25) % 8
    if instr_type = 0 ∨ instr_type = 1 then
      if Nat.land opcode 0x0FC000F0 = 0x00000090 then s  -- arm_multiply: pass
      else if Nat.land opcode 0x0FB00FF0 = 0x01000090 then s  -- arm_swp: pass
      else if Nat.land opcode 0x0FBF0FFF = 0x012FFF10 then arm_bx_blx s opcode
      else if (opcode >>> 22) % 64 = 8 ∧ (opcode >>> 4) % 16 = 0 then s  -- MSR/MRS: pass
      else arm_data_processing s opcode
    else if instr_type = 2 ∨ instr_type = 3 then arm_load_store s opcode
    else if instr_type = 4 then s  -- arm_load_store_multiple: pass
    else if instr_type = 5 then arm_branch s opcode
    else if instr_type = 6 then s  -- coprocessor: pass
    else  -- instr_type = 7
      if (opcode >>> 24) % 16 = 15 then arm_swi s opcode else s

/-- `ARM7TDMI.execute_thumb` (src/flamesgbav2.py:257): conditional branch,
unconditional branch and BX are implemented; the sign extensions
(`offset |= ~0xFF` on a Python int) go through `Int`. -/
def execute_thumb (s : St) (opcode : Nat) : St :=
  if opcode >>> 8 = 0xD0 then
    let cond := (opcode >>> 8) % 16
    if check_cond s cond then
      let offset : Int := opcode % 256
      let offset := if 128 ≤ opcode % 256 then offset - 256 else offset  -- if offset & 0x80
      let offset := offset * 2  -- offset <<= 1
      set_pc_int s ((get_pc s : Int) + offset)
    else s
  else if opcode >>> 11 = 0x1C then
    let offset : Int := opcode % 2048
    let offset := if 1024 ≤ opcode % 2048 then offset - 2048 else offset  -- if offset & 0x400
    let offset := offset * 2
    set_pc_int s ((get_pc s : Int) + offset)
  else if opcode >>> 8 = 0x47 then
    let rm_idx := (opcode >>> 3) % 16
    let target_addr := get_reg s rm_idx
    let s := set_thumb_mode s (target_addr % 2)
    set_pc s (target_addr - target_addr % 2)
  else s

/-- `ARM7TDMI.step` (src/flamesgbav2.py:145): fetch at PC (halfword in
Thumb state, word in ARM state), advance PC by the fetch width *before*
executing, then execute and count one cycle. -/
def step (s : St) : St :=
  let pc := get_pc s
  if get_flag_T s = 1 then
    let opcode := read_halfword s pc
    let s := set_pc s (pc + 2)
    let s := execute_thumb s opcode
    {s with cycles := s.cycles + 1}
  else
    let opcode := read_word s pc
    let s := set_pc s (pc + 4)
    let s := execute_arm s opcode
    {s with cycles := s.cycles + 1}

/-- The wired-up, reset system of `GBAEmulator.__init__`: zeroed buffers,
no cartridge, the dummy NOP BIOS (`[0x00,0x00,0xA0,0xE1]` repeated) that
`ARM7TDMI.__init__` loads, keypad all-released (`key_state = 0xFFFF`),
PPU at scanline 0, CPU reset (`CPSR = MODE_SYSTEM | 0xC0`, `PC = 0`). -/
def init : St where
  bios := fun i => if i % 4 = 2 then 0xA0 else if i % 4 = 3 then 0xE1 else 0
  ewram := fun _ => 0
  iwram := fun _ => 0
  io_regs := fun _ => 0
  palette_ram := fun _ => 0
  vram := fun _ => 0
  oam := fun _ => 0
  gamepak_rom := []
  sram := fun _ => 0
  dummy_unmapped := fun _ => 0
  ppuConnected := true
  keypadConnected := true
  key_state := 0xFFFF
  frame_buffer := fun _ => ⟨0, 0, 0⟩
  current_scanline := 0
  cycles_scanline := 0
  R := fun _ => 0
  bankFIQ := fun _ => 0
  bankIRQ := fun _ => 0
  bankSVC := fun _ => 0
  bankABT := fun _ => 0
  bankUND := fun _ => 0
  CPSR := 0xDF
  SPSR := fun _ => 0
  cycles := 0

end GBA

namespace GBA

/-- The Scenario C setup: through the bus, write the 16-bit color 0x7FFF to
the mode-3 frame-buffer location of scanline 0, pixel 0 (VRAM offset 0) and
set `DISPCNT = 3` (mode 3, forced blank clear) on the fresh system. -/
def scenarioC : St :=
  write_halfword (write_halfword init 0x06000000 0x7FFF) 0x04000000 0x0003

/-- A memory state with the EWRAM bytes 1, 2, 3, 4 at its base, written
through the bus; exhibits the misaligned-read behavior of this bus. -/
def misalignedDemo : St :=
  write_byte (write_byte (write_byte (write_byte init 0x02000000 1)
    0x02000001 2) 0x02000002 3) 0x02000003 4

/-- The reset system with the PC moved to EWRAM (all zero there, so the
fetched opcode is 0 and its condition field is EQ with Z clear). -/
def condFailSt : St := {init with R := fun j => if j = 15 then 0x02000000 else 0}

end GBA

namespace MM

theorem read_byte_fst_wl (s : St) (w : List Warning) (l a : Nat) :
    (read_byte {s with warnings := w, last_read_addr := l} a).1 = (read_byte s a).1 := by
  unfold read_byte
  dsimp only
  cases hm : mapAddr s.rom.length a with
  | mk r off =>
    cases r <;> simp [regionGet, regionLen] <;> try (split <;> rfl)

theorem read_byte_snd_shape (s : St) (a : Nat) :
    ∃ w, (read_byte s a).2 = {s with last_read_addr := a, warnings := s.warnings ++ w} := by
  unfold read_byte
  dsimp only
  cases hm : mapAddr s.rom.length a with
  | mk r off =>
    cases r <;> simp [regionGet, regionLen] <;> try split
    all_goals
      first
        | exact ⟨_, rfl⟩
        | exact ⟨[], by simp⟩

/-- `read_byte` on a state whose `warnings`/`last_read_addr` were updated:
the value is the value over the base state, and the resulting state is
again of that shape.  Collapses the state threading of `read_word`. -/
theorem read_byte_wl (s : St) (w : List Warning) (l b : Nat) :
    ∃ w2, read_byte {s with warnings := w, last_read_addr := l} b =
      ((read_byte s b).1, {s with last_read_addr := b, warnings := w ++ w2}) := by
  obtain ⟨w2, hw⟩ := read_byte_snd_shape {s with warnings := w, last_read_addr := l} b
  exact ⟨w2, Prod.ext (read_byte_fst_wl s w l b) hw⟩

theorem lor_left_comm (x y z : Nat) : x ||| (y ||| z) = y ||| (x ||| z) := by
  rw [← Nat.lor_assoc, Nat.lor_comm x y, Nat.lor_assoc]

theorem lor4_flip (x y z t : Nat) :
    x ||| y ||| z ||| t = t ||| z ||| y ||| x := by
  simp [Nat.lor_comm, Nat.lor_assoc, lor_left_comm]

/-- Value half of the misaligned-access law for the `MemoryManager` bus:
the misaligned word read is the aligned word read rotated right. -/
theorem read_word_fst_misaligned (s : St) (a : Nat) (h : a % 4 ≠ 0) :
    (read_word s a).1 = ror32 (read_word s (a - a % 4)).1 ((a % 4) * 8) := by
  have hA : ¬ (a - a % 4) % 4 ≠ 0 := by omega
  unfold read_word ror32
  dsimp only
  rw [if_pos h, if_neg hA]
  obtain ⟨w1, h1⟩ := read_byte_wl s (s.warnings ++ [Warning.unalignedWordRead a]) a (a - a % 4)
  rw [h1]
  dsimp only
  obtain ⟨w2, h2⟩ := read_byte_wl s (s.warnings ++ [Warning.unalignedWordRead a] ++ w1)
    (a - a % 4) (a - a % 4 + 1)
  rw [h2]
  dsimp only
  obtain ⟨w3, h3⟩ := read_byte_wl s (s.warnings ++ [Warning.unalignedWordRead a] ++ w1 ++ w2)
    (a - a % 4 + 1) (a - a % 4 + 2)
  rw [h3]
  dsimp only
  obtain ⟨w4, h4⟩ := read_byte_wl s (s.warnings ++ [Warning.unalignedWordRead a] ++ w1 ++ w2 ++ w3)
    (a - a % 4 + 2) (a - a % 4 + 3)
  rw [h4]
  dsimp only
  obtain ⟨v0, g0⟩ := read_byte_wl s s.warnings (a - a % 4) (a - a % 4)
  rw [g0]
  dsimp only
  obtain ⟨v1, g1⟩ := read_byte_wl s (s.warnings ++ v0) (a - a % 4) (a - a % 4 + 1)
  rw [g1]
  dsimp only
  obtain ⟨v2, g2⟩ := read_byte_wl s (s.warnings ++ v0 ++ v1) (a - a % 4 + 1) (a - a % 4 + 2)
  rw [g2]
  dsimp only
  obtain ⟨v3, g3⟩ := read_byte_wl s (s.warnings ++ v0 ++ v1 ++ v2) (a - a % 4 + 2) (a - a % 4 + 3)
  rw [g3]
  dsimp only
  rw [lor4_flip]

/-- Warning half of the misaligned-access law: the misaligned word read
appends the misalignment warning (followed by whatever the byte reads
themselves record). -/
theorem read_word_warns_misaligned (s : St) (a : Nat) (h : a % 4 ≠ 0) :
    ∃ w, (read_word s a).2.warnings =
      s.warnings ++ [Warning.unalignedWordRead a] ++ w := by
  unfold read_word
  dsimp only
  rw [if_pos h]
  obtain ⟨w1, h1⟩ := read_byte_wl s (s.warnings ++ [Warning.unalignedWordRead a]) a (a - a % 4)
  rw [h1]
  dsimp only
  obtain ⟨w2, h2⟩ := read_byte_wl s (s.warnings ++ [Warning.unalignedWordRead a] ++ w1)
    (a - a % 4) (a - a % 4 + 1)
  rw [h2]
  dsimp only
  obtain ⟨w3, h3⟩ := read_byte_wl s (s.warnings ++ [Warning.unalignedWordRead a] ++ w1 ++ w2)
    (a - a % 4 + 1) (a - a % 4 + 2)
  rw [h3]
  dsimp only
  obtain ⟨w4, h4⟩ := read_byte_wl s (s.warnings ++ [Warning.unalignedWordRead a] ++ w1 ++ w2 ++ w3)
    (a - a % 4 + 2) (a - a % 4 + 3)
  rw [h4]
  dsimp only
  exact ⟨w1 ++ w2 ++ w3 ++ w4, by simp⟩

end MM

namespace GBA

theorem check_cond_setR (s : St) (f : Nat → Nat) (c : Nat) :
    check_cond {s with R := f} c = check_cond s c := rfl

theorem regionSet_fb (s : St) (r : Region) (i v : Nat) :
    (regionSet s r i v).frame_buffer = s.frame_buffer := by cases r <;> rfl

theorem regionSet_scanline (s : St) (r : Region) (i v : Nat) :
    (regionSet s r i v).current_scanline = s.current_scanline := by cases r <;> rfl

theorem regionSet_cycles (s : St) (r : Region) (i v : Nat) :
    (regionSet s r i v).cycles_scanline = s.cycles_scanline := by cases r <;> rfl

theorem write_byte_fb (s : St) (a v : Nat) :
    (write_byte s a v).frame_buffer = s.frame_buffer := by
  unfold write_byte write_register_byte
  dsimp only
  repeat' split
  all_goals simp [regionSet_fb]

theorem write_byte_scanline (s : St) (a v : Nat) :
    (write_byte s a v).current_scanline = s.current_scanline := by
  unfold write_byte write_register_byte
  dsimp only
  repeat' split
  all_goals simp [regionSet_scanline]

theorem write_byte_cycles (s : St) (a v : Nat) :
    (write_byte s a v).cycles_scanline = s.cycles_scanline := by
  unfold write_byte write_register_byte
  dsimp only
  repeat' split
  all_goals simp [regionSet_cycles]

theorem fillRow_scanline (y : Nat) (col : Color) (s : St) (n : Nat) :
    (fillRow y col s n).current_scanline = s.current_scanline := by
  induction n with
  | zero => rfl
  | succ x ih => unfold fillRow; dsimp only; exact ih

theorem fillRow_cycles (y : Nat) (col : Color) (s : St) (n : Nat) :
    (fillRow y col s n).cycles_scanline = s.cycles_scanline := by
  induction n with
  | zero => rfl
  | succ x ih => unfold fillRow; dsimp only; exact ih

theorem mode3Row_scanline (y : Nat) (s : St) (n : Nat) :
    (mode3Row y s n).current_scanline = s.current_scanline := by
  induction n with
  | zero => rfl
  | succ x ih => unfold mode3Row; dsimp only; split <;> exact ih

theorem mode3Row_cycles (y : Nat) (s : St) (n : Nat) :
    (mode3Row y s n).cycles_scanline = s.cycles_scanline := by
  induction n with
  | zero => rfl
  | succ x ih => unfold mode3Row; dsimp only; split <;> exact ih

theorem mode4Row_scanline (y page : Nat) (s : St) (n : Nat) :
    (mode4Row y page s n).current_scanline = s.current_scanline := by
  induction n with
  | zero => rfl
  | succ x ih =>
    unfold mode4Row
    dsimp only
    repeat' split
    all_goals exact ih

theorem mode4Row_cycles (y page : Nat) (s : St) (n : Nat) :
    (mode4Row y page s n).cycles_scanline = s.cycles_scanline := by
  induction n with
  | zero => rfl
  | succ x ih =>
    unfold mode4Row
    dsimp only
    repeat' split
    all_goals exact ih

theorem render_scanline_scanline (y : Nat) (s : St) :
    (render_scanline y s).current_scanline = s.current_scanline := by
  unfold render_scanline
  dsimp only
  repeat' split
  all_goals simp [fillRow_scanline, mode3Row_scanline, mode4Row_scanline]

theorem render_scanline_cycles (y : Nat) (s : St) :
    (render_scanline y s).cycles_scanline = s.cycles_scanline := by
  unfold render_scanline
  dsimp only
  repeat' split
  all_goals simp [fillRow_cycles, mode3Row_cycles, mode4Row_cycles]

/-- The fill loop never touches pixels of earlier rows. -/
theorem fillRow_fb_lt (y : Nat) (col : Color) (s : St) (n j : Nat) (hj : j < y * 240) :
    (fillRow y col s n).frame_buffer j = s.frame_buffer j := by
  induction n with
  | zero => rfl
  | succ x ih =>
    unfold fillRow fbUpd
    dsimp only
    rw [if_neg (by omega)]
    exact ih

/-- The mode-3 loop never touches pixels of earlier rows. -/
theorem mode3Row_fb_lt (y : Nat) (s : St) (n j : Nat) (hj : j < y * 240) :
    (mode3Row y s n).frame_buffer j = s.frame_buffer j := by
  induction n with
  | zero => rfl
  | succ x ih =>
    unfold mode3Row fbUpd
    dsimp only
    split <;> (dsimp only; rw [if_neg (by omega)]) <;> exact ih

/-- The mode-4 loop never touches pixels of earlier rows. -/
theorem mode4Row_fb_lt (y page : Nat) (s : St) (n j : Nat) (hj : j < y * 240) :
    (mode4Row y page s n).frame_buffer j = s.frame_buffer j := by
  induction n with
  | zero => rfl
  | succ x ih =>
    unfold mode4Row fbUpd
    dsimp only
    repeat' split
    all_goals (dsimp only; rw [if_neg (by omega)]; exact ih)

/-- Rendering row `y` leaves every pixel below `y * 240` unchanged. -/
theorem render_scanline_fb_lt (y : Nat) (s : St) (j : Nat) (hj : j < y * 240) :
    (render_scanline y s).frame_buffer j = s.frame_buffer j := by
  unfold render_scanline
  dsimp only
  repeat' split
  all_goals simp [fillRow_fb_lt _ _ _ _ _ hj, mode3Row_fb_lt _ _ _ _ hj,
    mode4Row_fb_lt _ _ _ _ _ hj]

/-- Scanline evolution of one `PPU.step` call, exactly as the code wraps
(increment, then reset at 228). -/
theorem ppu_step_scanline (c : Nat) (s : St) :
    (ppu_step c s).current_scanline =
      if 1232 ≤ s.cycles_scanline + c then
        (if s.current_scanline + 1 = 228 then 0 else s.current_scanline + 1)
      else s.current_scanline := by
  unfold ppu_step
  dsimp only
  split
  · rw [write_byte_scanline]
    simp only [apply_ite St.current_scanline, render_scanline_scanline]
    simp [ite_self]
  · rfl

/-- Accumulator evolution of one `PPU.step` call. -/
theorem ppu_step_cycles (c : Nat) (s : St) :
    (ppu_step c s).cycles_scanline =
      if 1232 ≤ s.cycles_scanline + c then s.cycles_scanline + c - 1232
      else s.cycles_scanline + c := by
  unfold ppu_step
  dsimp only
  split
  · rw [write_byte_cycles]
    simp only [apply_ite St.cycles_scanline, render_scanline_cycles]
    simp [ite_self]
  · rfl

/-- The frame buffer after one `PPU.step` call: the current scanline is
rendered exactly when the accumulator crossed the threshold and the line is
visible; otherwise the buffer is untouched. -/
theorem ppu_step_fb (c : Nat) (s : St) :
    (ppu_step c s).frame_buffer =
      if 1232 ≤ s.cycles_scanline + c ∧ s.current_scanline < 160 then
        (render_scanline s.current_scanline
          {s with cycles_scanline := s.cycles_scanline + c - 1232}).frame_buffer
      else s.frame_buffer := by
  unfold ppu_step
  dsimp only
  split
  next htrig =>
    rw [write_byte_fb]
    simp only [apply_ite St.frame_buffer]
    split
    next hvis =>
      have hc2 : 1232 ≤ s.cycles_scanline + c ∧ s.current_scanline < 160 := ⟨htrig, hvis⟩
      rw [if_pos hc2, ite_self]
    next hvis =>
      have hc2 : ¬(1232 ≤ s.cycles_scanline + c ∧ s.current_scanline < 160) :=
        fun hh => hvis hh.2
      rw [if_neg hc2]
      simp [ite_self]
  next htrig =>
    have hc2 : ¬(1232 ≤ s.cycles_scanline + c ∧ s.current_scanline < 160) :=
      fun hh => htrig hh.1
    rw [if_neg hc2]

/-- Pixel 0 survives any `PPU.step` taken while the scanline is past 0. -/
theorem ppu_step_fb0 (c : Nat) (s : St) (h : 1 ≤ s.current_scanline) :
    (ppu_step c s).frame_buffer 0 = s.frame_buffer 0 := by
  rw [ppu_step_fb]
  split
  · rw [render_scanline_fb_lt _ _ _ (by omega)]
  · rfl

set_option maxRecDepth 8000 in
/-- The first frame step of Scenario C concretely: scanline 0 is rendered,
pixel 0 becomes white. -/
theorem scenarioC_step1 :
    (ppu_step 1232 scenarioC).frame_buffer 0 = ⟨255, 255, 255⟩ ∧
    (ppu_step 1232 scenarioC).current_scanline = 1 ∧
    (ppu_step 1232 scenarioC).cycles_scanline = 0 := by decide

/-- The remaining steps of the Scenario C frame preserve pixel 0. -/
theorem c7_aux : ∀ k, k ≤ 227 →
    ((fun s => ppu_step 1232 s)^[k] (ppu_step 1232 scenarioC)).frame_buffer 0 = ⟨255, 255, 255⟩ ∧
    ((fun s => ppu_step 1232 s)^[k] (ppu_step 1232 scenarioC)).current_scanline =
      (if 1 + k = 228 then 0 else 1 + k) ∧
    ((fun s => ppu_step 1232 s)^[k] (ppu_step 1232 scenarioC)).cycles_scanline = 0 := by
  intro k
  induction k with
  | zero =>
    intro _
    refine ⟨scenarioC_step1.1, ?_, scenarioC_step1.2.2⟩
    rw [Function.iterate_zero_apply, scenarioC_step1.2.1]
    norm_num
  | succ n ih =>
    intro hk
    obtain ⟨hfb, hscan, hcyc⟩ := ih (by omega)
    have hs1 : ((fun s => ppu_step 1232 s)^[n] (ppu_step 1232 scenarioC)).current_scanline
        = 1 + n := by
      rw [hscan, if_neg (by omega)]
    rw [Function.iterate_succ_apply']
    refine ⟨?_, ?_, ?_⟩
    · rw [ppu_step_fb0 _ _ (by rw [hs1]; omega)]
      exact hfb
    · rw [ppu_step_scanline, hcyc, hs1, if_pos (by omega)]
      have h2 : 1 + n + 1 = 1 + (n + 1) := by omega
      rw [h2]
    · rw [ppu_step_cycles, hcyc]
      simp

/-- Scanline/accumulator trace of the canonical frame from reset. -/
theorem c9_aux : ∀ k, k ≤ 227 →
    ((fun s => ppu_step 1232 s)^[k] init).current_scanline = k ∧
    ((fun s => ppu_step 1232 s)^[k] init).cycles_scanline = 0 := by
  intro k
  induction k with
  | zero => exact fun _ => ⟨rfl, rfl⟩
  | succ n ih =>
    intro hk
    obtain ⟨hscan, hcyc⟩ := ih (by omega)
    rw [Function.iterate_succ_apply']
    refine ⟨?_, ?_⟩
    · rw [ppu_step_scanline, hcyc, hscan, if_pos (by omega), if_neg (by omega)]
    · rw [ppu_step_cycles, hcyc]
      simp

/-- Over the 228 steps of one frame from reset, the rendered lines are
exactly 0..159 in order, each once, followed by 68 blank lines. -/
theorem c9_trace :
    (List.range 228).map
      (fun k => renderedLine ((fun s => ppu_step 1232 s)^[k] init) 1232) =
    (List.range 160).map some ++ List.replicate 68 none := by
  have he : ∀ k ∈ List.range 228,
      renderedLine ((fun s => ppu_step 1232 s)^[k] init) 1232 =
      (if k < 160 then some k else none) := by
    intro k hk
    have hk' : k ≤ 227 := by simpa using Nat.lt_succ_iff.mp (List.mem_range.mp hk)
    obtain ⟨hscan, hcyc⟩ := c9_aux k hk'
    unfold renderedLine
    rw [hscan, hcyc]
    by_cases h : k < 160
    · rw [if_pos ⟨by omega, h⟩, if_pos h]
    · rw [if_neg (fun hh => h hh.2), if_neg h]
  rw [List.map_congr_left he]
  set_option maxRecDepth 40000 in decide

/-- Every region of the fresh system holds byte values only. -/
theorem regionGet_init_le (r : Region) (off : Nat) : regionGet init r off ≤ 255 := by
  cases r <;> simp [regionGet, init] <;> (try split_ifs) <;> norm_num

end GBA

/-- Claim C1 (amended).  For every address `a` with `a % 4 ≠ 0`: on the
`MemoryManager` bus (src/0.py) `read_word a` returns the aligned word at
`a & ~3` rotated right by `(a % 4) * 8` bits and appends a misalignment
warning (both operations are total functions, so neither throws); the
`flamesgbav2` `Memory` bus instead returns the aligned word *unrotated*
and records nothing — its `read_word` on `a` coincides with the aligned
read. -/
theorem c1_misaligned_word_read (s : MM.St) (t : GBA.St) (a : Nat) (h : a % 4 ≠ 0) :
    ((MM.read_word s a).1 = ror32 (MM.read_word s (a - a % 4)).1 ((a % 4) * 8) ∧
      ∃ w, (MM.read_word s a).2.warnings =
        s.warnings ++ [MM.Warning.unalignedWordRead a] ++ w) ∧
    GBA.read_word t a = GBA.read_word t (a - a % 4) := by
  refine ⟨⟨MM.read_word_fst_misaligned s a h, MM.read_word_warns_misaligned s a h⟩, ?_⟩
  unfold GBA.read_word
  dsimp only
  rw [if_pos h, if_neg (by omega : ¬(a - a % 4) % 4 ≠ 0)]

/-- Witness for claim C1 at `a = 1` on the fresh states. -/
theorem c1_witness :
    ((MM.read_word MM.init 1).1 =
        ror32 (MM.read_word MM.init (1 - 1 % 4)).1 ((1 % 4) * 8) ∧
      ∃ w, (MM.read_word MM.init 1).2.warnings =
        MM.init.warnings ++ [MM.Warning.unalignedWordRead 1] ++ w) ∧
    GBA.read_word GBA.init 1 = GBA.read_word GBA.init (1 - 1 % 4) :=
  c1_misaligned_word_read MM.init GBA.init 1 (by decide)

/-- Counterexample to claim C1 as stated: on the `flamesgbav2` bus with
EWRAM bytes 1,2,3,4, the misaligned read at `0x02000001` returns the
aligned word `0x04030201` unrotated, not the claimed rotation
`0x01040302`. -/
theorem c1_counterexample :
    GBA.read_word GBA.misalignedDemo 0x02000001 = 0x04030201 ∧
    ror32 (GBA.read_word GBA.misalignedDemo 0x02000000) ((0x02000001 % 4) * 8) = 0x01040302 ∧
    (0x04030201 : Nat) ≠ 0x01040302 := by decide

/-- Claim C2 (code bug).  The round-trip fails for values that do not fit
in the access width: `write(0x02000000, 257, 1)` on the table-driven
`MemoryManager` raises `OverflowError` inside `int.to_bytes` (the value is
never masked), so memory stays 0 and no read can return `257 % 256 = 1`. -/
theorem c2_roundtrip_overflow :
    MM2.write MM2.init 0x02000000 257 1 = Except.error MM2.Err.overflow ∧
    (MM2.read MM2.init 0x02000000 1).1 = 0 ∧ 257 % 256 = 1 :=
  ⟨rfl, rfl, rfl⟩

/-- Claim C3 (code bug).  The bus raises: `write(0x02000000, 256, 1)` on
the table-driven `MemoryManager` reaches `value.to_bytes(size, 'little')`
with an unmasked value and raises `OverflowError` instead of degrading to
a warning. -/
theorem c3_write_raises :
    MM2.write MM2.init 0x02000000 256 1 = Except.error MM2.Err.overflow := rfl

/-- Claim C4.  For two different privileged modes with distinct banks
(FIQ, IRQ, SVC, ABT, UND), an R13 write performed while in mode `m1` does
not change the value `get_reg 13` returns while in mode `m2`; symmetric in
`m1`/`m2` by the quantification. -/
theorem c4_register_banking (s : GBA.St) (v m1 m2 c2 : Nat)
    (h1 : m1 = 0x11 ∨ m1 = 0x12 ∨ m1 = 0x13 ∨ m1 = 0x17 ∨ m1 = 0x1B)
    (h2 : m2 = 0x11 ∨ m2 = 0x12 ∨ m2 = 0x13 ∨ m2 = 0x17 ∨ m2 = 0x1B)
    (hne : m1 ≠ m2) (hs : s.CPSR % 32 = m1) (hc : c2 % 32 = m2) :
    GBA.get_reg {GBA.set_reg s 13 v with CPSR := c2} 13 =
    GBA.get_reg {s with CPSR := c2} 13 := by
  unfold GBA.get_reg GBA.set_reg GBA.setBank GBA.setR GBA.bank
  rcases h1 with rfl | rfl | rfl | rfl | rfl <;> rcases h2 with rfl | rfl | rfl | rfl | rfl <;>
    simp_all

/-- Witness for claim C4: IRQ-mode write, SVC-mode read. -/
theorem c4_witness :
    GBA.get_reg {GBA.set_reg {GBA.init with CPSR := 0x12} 13 7 with CPSR := 0x13} 13 =
    GBA.get_reg {{GBA.init with CPSR := 0x12} with CPSR := 0x13} 13 :=
  c4_register_banking {GBA.init with CPSR := 0x12} 7 0x12 0x13 0x13
    (by decide) (by decide) (by decide) (by decide) (by decide)

/-- Claim C5.  In ARM state (T flag clear), when the fetched opcode's
condition field evaluates false against the current flags, one CPU step
changes nothing except the program counter (advanced by the 4-byte fetch
width, modulo 2^32) and the cycle counter (one cycle): registers R0-R14,
all banks, CPSR/SPSR and all memory are untouched. -/
theorem c5_cond_false_step (s : GBA.St)
    (hT : GBA.get_flag_T s = 0)
    (hc : GBA.check_cond s ((GBA.read_word s (s.R 15) >>> 28) % 16) = false) :
    GBA.step s =
      {s with R := (fun j => if j = 15 then (s.R 15 + 4) % 4294967296 else s.R j),
              cycles := s.cycles + 1} := by
  unfold GBA.step GBA.get_pc
  rw [if_neg (by simp [hT])]
  unfold GBA.set_pc GBA.setR GBA.execute_arm
  dsimp only
  rw [GBA.check_cond_setR, hc]
  simp

/-- Witness for claim C5: fetching opcode 0 (condition EQ, Z clear) at an
EWRAM program counter. -/
theorem c5_witness :
    GBA.step GBA.condFailSt =
      {GBA.condFailSt with
        R := (fun j => if j = 15 then (GBA.condFailSt.R 15 + 4) % 4294967296
              else GBA.condFailSt.R j),
        cycles := GBA.condFailSt.cycles + 1} :=
  c5_cond_false_step GBA.condFailSt (by decide) (by decide)

/-- Claim C6 (amended).  Both `MemoryManager.load_bios` variants truncate
an oversized boot image and record a warning, never failing: the copied
prefix is `min (len data) 16384` bytes and the size warning appears exactly
when the data exceeds 16 KiB.  The `flamesgbav2` `Memory.load_bios`
instead raises `ValueError` for oversized data (and copies without warning
otherwise). -/
theorem c6_load_boot_truncation :
    (∀ (s : MM.St) (data : List Nat),
      (∀ i : Nat, (MM.load_bios s data).bios i =
        if i < min data.length 16384 then data.getD i 0 else s.bios i) ∧
      (MM.load_bios s data).warnings =
        s.warnings ++ (if 16384 < data.length then [MM.Warning.biosTooLarge data.length]
          else [])) ∧
    (∀ (t : GBA.St) (data : List Nat),
      GBA.load_bios t data =
        if data.length ≤ 16384 then
          Except.ok {t with bios := fun i => if i < data.length then data.getD i 0 else t.bios i}
        else Except.error "BIOS too large, meow!") := by
  constructor
  · intro s data
    unfold MM.load_bios
    by_cases hd : data.length ≤ 16384
    · rw [if_pos hd]
      refine ⟨fun i => ?_, by simp [Nat.not_lt.mpr hd]⟩
      rw [Nat.min_eq_left hd]
    · rw [if_neg hd]
      refine ⟨fun i => ?_, by simp [Nat.lt_of_not_le hd]⟩
      rw [Nat.min_eq_right (by omega)]
  · intro t data
    unfold GBA.load_bios
    by_cases hd : data.length ≤ 16384
    · rw [if_neg (by omega), if_pos hd]
    · rw [if_pos (by omega), if_neg hd]

/-- Counterexample to claim C6 as stated: a 16385-byte boot image makes
`flamesgbav2`'s `Memory.load_bios` fail fatally (ValueError), instead of
truncating with a warning. -/
theorem c6_counterexample :
    GBA.load_bios GBA.init (List.replicate 16385 0) =
      Except.error "BIOS too large, meow!" := by
  unfold GBA.load_bios
  rw [if_pos (by rw [List.length_replicate]; norm_num)]

/-- Claim C7.  After writing color 0x7FFF to the mode-3 frame-buffer
location of scanline 0, pixel 0, and advancing the video unit through one
full 228-scanline frame with forced blank clear, pixel 0 of the frame
buffer is 8-bit-per-channel white (255, 255, 255). -/
theorem c7_mode3_white_pixel :
    ((fun s => GBA.ppu_step 1232 s)^[228] GBA.scenarioC).frame_buffer 0 = ⟨255, 255, 255⟩ := by
  have h228 : (228 : Nat) = 227 + 1 := rfl
  rw [h228, Function.iterate_succ_apply]
  exact (GBA.c7_aux 227 (by omega)).1

/-- Claim C8.  After pressing button A (keyboard key `z`, bit 0) on the
fresh system, the byte read of the exposed input register 0x04000130
returns the latched value with the A bit cleared (pressed = logic low) and
all other button bits (1-9) set. -/
theorem c8_button_a_press :
    GBA.read_byte (GBA.key_down GBA.init "z") 0x04000130 = 0xFFFE ∧
    (GBA.read_byte (GBA.key_down GBA.init "z") 0x04000130).testBit 0 = false ∧
    ([1, 2, 3, 4, 5, 6, 7, 8, 9].all
      (fun b => (GBA.read_byte (GBA.key_down GBA.init "z") 0x04000130).testBit b)) = true := by
  decide

/-- Claim C9.  For every state with a legal scanline index and any cycle
count: the index stays in 0..227 and wraps modulo 228 exactly when the
1232-cycle threshold is crossed, and the frame buffer changes exactly by
rendering the current scanline at that crossing (when visible).  Moreover,
over the 228 steps of the canonical frame from reset, the rendered lines
are exactly 0..159, each exactly once. -/
theorem c9_scanline_invariant :
    (∀ (s : GBA.St) (c : Nat), s.current_scanline ≤ 227 →
      (GBA.ppu_step c s).current_scanline ≤ 227 ∧
      (GBA.ppu_step c s).current_scanline =
        (if 1232 ≤ s.cycles_scanline + c then (s.current_scanline + 1) % 228
          else s.current_scanline) ∧
      (GBA.ppu_step c s).frame_buffer =
        (if 1232 ≤ s.cycles_scanline + c ∧ s.current_scanline < 160 then
          (GBA.render_scanline s.current_scanline
            {s with cycles_scanline := s.cycles_scanline + c - 1232}).frame_buffer
          else s.frame_buffer)) ∧
    (List.range 228).map
      (fun k => GBA.renderedLine ((fun s => GBA.ppu_step 1232 s)^[k] GBA.init) 1232) =
    (List.range 160).map some ++ List.replicate 68 none := by
  refine ⟨?_, GBA.c9_trace⟩
  intro s c h
  have hs := GBA.ppu_step_scanline c s
  refine ⟨?_, ?_, GBA.ppu_step_fb c s⟩
  · rw [hs]
    split_ifs <;> omega
  · rw [hs]
    split_ifs <;> omega

/-- Witness for claim C9 at the reset state with one scanline's worth of
cycles. -/
theorem c9_witness :
    (GBA.ppu_step 1232 GBA.init).current_scanline ≤ 227 :=
  (c9_scanline_invariant.1 GBA.init 1232 (by decide)).1

/-- Claim C10.  A byte read of the key-input register address 0x04000130
returns the keypad's full 16-bit latched state — 0xFFFF in the initial
all-released state, outside the 0-255 range that a byte read of any other
address can produce. -/
theorem c10_keyinput_byte_read :
    GBA.read_byte GBA.init 0x04000130 = 65535 ∧
    ∀ a : Nat, a ≠ 0x04000130 → GBA.read_byte GBA.init a ≤ 255 := by
  refine ⟨by decide, ?_⟩
  intro a ha
  unfold GBA.read_byte
  dsimp only
  split
  next hk => exact absurd hk.2 ha
  next hk =>
    split
    next => norm_num
    next => exact GBA.regionGet_init_le _ _

/-- Witness for claim C10 at address 0. -/
theorem c10_witness : GBA.read_byte GBA.init 0 ≤ 255 :=
  c10_keyinput_byte_read.2 0 (by decide)
